import Mathlib

set_option maxRecDepth 10000

/-!
Verification of the unleaktrade/waitlist service against its specification.

The development shallowly embeds the Go sources:
* internal/data/user.go         — the User record.
* the presence cache            — Cache with IsPresent / Add / Fill.
* cmd/api/routes.go             — generateSecuredLink, the token regexp,
                                  the register / activate handlers and the
                                  cors / limit / requireAPIKey middleware chain.
* internal/crypto               — the Create / Extract / Hash operations of the
                                  token service; their implementation file is
                                  not part of the sources at hand, so they are
                                  modelled from the specification (see the
                                  doc comments of JWTService and hashFP).

Collaborator effects (token extraction, store lookups, store saves, cache
updates, outgoing mail) are made explicit: each handler returns its HTTP
status together with the ordered list of collaborator events it produced and
the updated store / cache states.
-/

namespace Waitlist

/-- The User record of internal/data/user.go: address, email, uuid,
timestamp, sponsor. -/
structure User where
  address : String
  email : String
  uuid : String
  timestamp : Int
  sponsor : String
deriving DecidableEq

/-- The presence cache: a concurrent map identity → first-seen timestamp.
The backing Go map is modelled as an association list where the most recent
insertion shadows older ones (exactly the observable behaviour of map writes
followed by lookups). -/
structure Cache where
  m : List (String × Int)
deriving DecidableEq

/-- Cache.New: fresh cache with an empty backing map. -/
def Cache.new : Cache := ⟨[]⟩

/-- Cache.IsPresent: membership test on the backing map. -/
def Cache.isPresent (c : Cache) (key : String) : Bool :=
  (c.m.lookup key).isSome

/-- Cache.Add: point insert / overwrite of one entry. -/
def Cache.add (c : Cache) (key : String) (ts : Int) : Cache :=
  ⟨(key, ts) :: c.m⟩

/-- Cache.Fill: swaps the whole backing map; a nil argument (modelled as
none) is replaced by a fresh empty map, so filling with nil clears the
cache. -/
def Cache.fill (_c : Cache) (entries : Option (List (String × Int))) : Cache :=
  ⟨entries.getD []⟩

/-- The durable store (data.DB collaborator, §6 of the spec and the mock
databases of the route tests): a set of known identities, a set of
identities whose lookup faults, a flag making persists fault, and the list
of persisted records. -/
structure Store where
  present : List String
  failing : List String
  saveFails : Bool
  saved : List User
deriving DecidableEq

/-- db.IsPresent: errors for identities in the failing set, otherwise
reports membership in the present set. -/
def Store.isPresent (s : Store) (k : String) : Except Unit Bool :=
  if s.failing.contains k then .error () else .ok (s.present.contains k)

/-- db.Save: errors when the store is faulty, otherwise persists the record
and makes its address known. -/
def Store.save (s : Store) (u : User) : Except Unit Store :=
  if s.saveFails then .error ()
  else .ok { s with present := u.address :: s.present, saved := u :: s.saved }

/-- One collaborator call made by a handler, in call order. -/
inductive Ev where
  | extractCall (token : String)
  | storeLookup (key : String)
  | storeSave (u : User)
  | cacheAdd (key : String) (ts : Int)
  | sendActivation (email link hash : String)
  | sendConfirmation (email : String)
deriving DecidableEq

/-- Character class [A-Za-z0-9-_] of the token regexp in routes.go. -/
def jwtCharOk (c : Char) : Bool :=
  c.isAlphanum || c == '-' || c == '_'

/-- Splits a character list at every dot, keeping empty segments: the
segment structure the anchored token regexp of routes.go quantifies over. -/
def splitDots : List Char → List (List Char)
  | [] => [[]]
  | c :: cs =>
      match splitDots cs with
      | [] => if c = '.' then [[], []] else [[c]]
      | s :: ss => if c = '.' then [] :: s :: ss else (c :: s) :: ss

/-- The anchored regexp of routes.go matching three dot-delimited segments
over [A-Za-z0-9-_], the first two non-empty, the third possibly empty. -/
def jwtregexpMatch (s : String) : Bool :=
  match splitDots s.data with
  | [a, b, c] =>
      !a.isEmpty && !b.isEmpty && a.all jwtCharOk && b.all jwtCharOk && c.all jwtCharOk
  | _ => false

/-- generateSecuredLink of routes.go: the activation link embeds the raw
token only. -/
def generateSecuredLink (t : String) : String :=
  "https://unleak.trade/activate/" ++ t

/-- Result of the activate handler: HTTP status, ordered collaborator
events, resulting store and cache states. -/
structure ActFx where
  status : Nat
  events : List Ev
  store : Store
  cache : Cache
deriving DecidableEq

/-- The activate handler of routes.go. hashFn is app.jwt.Hash and
extractFn is app.jwt.Extract, passed as parameters: the handler treats both
as opaque collaborators. The branch structure mirrors the source: regexp
and fingerprint gate, extract, identity lookup, sponsor lookup, save, cache
update, confirmation mail. -/
def activate (hashFn : String → String) (extractFn : String → Except Unit User)
    (store : Store) (cache : Cache) (t h : String) : ActFx :=
  if ¬ (jwtregexpMatch t = true) ∨ hashFn t ≠ h then
    ⟨401, [], store, cache⟩
  else
    match extractFn t with
    | .error _ => ⟨401, [.extractCall t], store, cache⟩
    | .ok u =>
      match store.isPresent u.address with
      | .error _ => ⟨500, [.extractCall t, .storeLookup u.address], store, cache⟩
      | .ok true => ⟨409, [.extractCall t, .storeLookup u.address], store, cache⟩
      | .ok false =>
        match store.isPresent u.sponsor with
        | .error _ =>
            ⟨500, [.extractCall t, .storeLookup u.address, .storeLookup u.sponsor],
              store, cache⟩
        | .ok false =>
            ⟨400, [.extractCall t, .storeLookup u.address, .storeLookup u.sponsor],
              store, cache⟩
        | .ok true =>
          match store.save u with
          | .error _ =>
              ⟨500, [.extractCall t, .storeLookup u.address, .storeLookup u.sponsor,
                      .storeSave u], store, cache⟩
          | .ok store2 =>
              ⟨201, [.extractCall t, .storeLookup u.address, .storeLookup u.sponsor,
                      .storeSave u, .cacheAdd u.address u.timestamp,
                      .sendConfirmation u.email],
                store2, cache.add u.address u.timestamp⟩

/-- Result of the register handler: HTTP status, the hash field of the JSON
response (none when the request fails), ordered collaborator events, and
the resulting store state. -/
structure RegFx where
  status : Nat
  responseHash : Option String
  events : List Ev
  store : Store
deriving DecidableEq

/-- The register handler of routes.go. bindOk is the outcome of the
structural binding validation of the request body, createFn is
app.jwt.Create and hashFn is app.jwt.Hash. On success the handler mails the
activation link plus the hash and answers 202 with the hash; the durable
store is never consulted. -/
def register (hashFn : String → String) (createFn : User → Int → Except Unit String)
    (bindOk : Bool) (u : User) (now : Int) (store : Store) : RegFx :=
  if ¬ (bindOk = true) then ⟨400, none, [], store⟩
  else
    match createFn u now with
    | .error _ => ⟨400, none, [], store⟩
    | .ok token =>
        ⟨202, some (hashFn token),
          [.sendActivation u.email (generateSecuredLink token) (hashFn token)],
          store⟩

/-- The five guarded API operations of setupRouter. -/
inductive Op where
  | health
  | listUsers
  | registerOp
  | activateOp
  | checkWallet
deriving DecidableEq

/-- The middleware chain of setupRouter in source order: cors (aborts
OPTIONS preflights with 204), limit (aborts with 429 when the per-client
limiter denies the request), requireAPIKey (aborts with 401 when the
UNLK-API-KEY header is empty or differs from the configured key), then the
handler of the requested operation. The handler is a parameter: the
theorems quantify over it to express that it is never reached on aborted
requests. -/
def pipeline (isOptions : Bool) (allow : Bool) (apiKeyHeader configuredKey : String)
    (handler : Op → Store × Cache → Nat × Store × Cache)
    (op : Op) (st : Store × Cache) : Nat × Store × Cache :=
  if isOptions = true then (204, st)
  else if ¬ (allow = true) then (429, st)
  else if apiKeyHeader = "" ∨ apiKeyHeader ≠ configuredKey then (401, st)
  else handler op st

/-- Candidate claims carried by a token: identity (address), contact
(email), referrer (sponsor). -/
structure Claims where
  address : String
  email : String
  sponsor : String
deriving DecidableEq

/-- Modelled from the spec: a signed token as a self-contained value. The
implementation file of the token service (internal/crypto, the JWTBase
Create / extract / Hash operations and ErrInvalidToken) is not among the
sources, so the token is modelled per §3/§4.1: it records which algorithm
and key signed it (a token value produced by create under one instance is
verifiable only by an instance bound to the same algorithm and key), the
candidate claims, and the issued-at / not-before / expiry instants. -/
structure TokenData where
  alg : String
  keyId : Nat
  claims : Claims
  iat : Int
  nbf : Int
  exp : Int
deriving DecidableEq

/-- Modelled from the spec: the single undifferentiated token-verification
error of §4.1. -/
inductive TokenErr where
  | invalidToken
deriving DecidableEq

/-- Modelled from the spec: a token-service instance bound at construction
to exactly one algorithm family and one key. -/
structure JWTService where
  alg : String
  keyId : Nat
deriving DecidableEq

/-- Modelled from the spec: the fixed validity window stamped by create
(ten minutes in the reference deployment, in seconds). -/
def fixedWindow : Int := 600

/-- Modelled from the spec: create(claims, now) stamps issuedAt = now,
notBefore = now, expiresAt = now + fixedWindow and signs with the algorithm
and key bound to the instance; it does not validate claim completeness. -/
def JWTService.create (j : JWTService) (c : Claims) (now : Int) : TokenData :=
  ⟨j.alg, j.keyId, c, now, now, now + fixedWindow⟩

/-- Modelled from the spec: extract verifies the signature (algorithm and
key of the verifying instance), the liveness window notBefore ≤ now <
expiresAt, and that the three required claims are non-empty; every failure
collapses to the one invalidToken error. -/
def JWTService.extract (j : JWTService) (t : TokenData) (now : Int) :
    Except TokenErr Claims :=
  if t.alg = j.alg ∧ t.keyId = j.keyId ∧ t.nbf ≤ now ∧ now < t.exp
      ∧ t.claims.address ≠ "" ∧ t.claims.email ≠ "" ∧ t.claims.sponsor ≠ "" then
    .ok t.claims
  else
    .error .invalidToken

/-- Hexadecimal digit in uppercase, as produced by the fingerprint
rendering. -/
def hexChar (n : Nat) : Char :=
  if n < 10 then Char.ofNat (48 + n) else Char.ofNat (55 + n)

/-- Modelled from the spec: the fingerprint function hash of
internal/crypto (its implementation file is not among the sources; the
tests fix it as a 128-character uppercase-hex digest of the raw token
string). Modelled as a deterministic, fixed-length (128 hex characters)
digest of the string; one-wayness and collision resistance are not
representable. -/
def hashFP (s : String) : String :=
  let seed := s.data.foldl (fun a c => a * 131 + c.toNat) 7
  String.mk ((List.range 64).foldr (fun i acc =>
    let b := (seed * (i + 1) + i) % 256
    hexChar (b / 16) :: hexChar (b % 16) :: acc) [])

/-- Key / value association lists: a lookup succeeds exactly when the key
occurs among the stored keys. -/
theorem lookup_isSome_iff (k : String) (l : List (String × Int)) :
    (l.lookup k).isSome = true ↔ k ∈ l.map Prod.fst := by
  induction l with
  | nil => simp [List.lookup]
  | cons p rest ih =>
      obtain ⟨a, v⟩ := p
      by_cases hk : k = a
      · subst hk
        simp [List.lookup]
      · have hb : (k == a) = false := beq_eq_false_iff_ne.mpr hk
        simp [List.lookup, hb, hk, ih]

/-- C1: an activate request whose token fails the three-dot token pattern,
or whose supplied fingerprint differs from the fingerprint of the token, is
answered 401 Unauthorized with no collaborator call at all: extract is
never invoked and store and cache are untouched. -/
theorem C1_unauthorized_without_extract
    (hashFn : String → String) (extractFn : String → Except Unit User)
    (store : Store) (cache : Cache) (t h : String)
    (hbad : jwtregexpMatch t = false ∨ hashFn t ≠ h) :
    activate hashFn extractFn store cache t h = ⟨401, [], store, cache⟩ := by
  unfold activate
  have hc : ¬ (jwtregexpMatch t = true) ∨ hashFn t ≠ h := by
    rcases hbad with hb | hb
    · exact Or.inl (by simp [hb])
    · exact Or.inr hb
  rw [if_pos hc]

/-- C1 witness: a concrete run with a malformed token is rejected 401 with
an empty event trace, for an extract function that would have accepted. -/
theorem C1_unauthorized_without_extract_witness :
    jwtregexpMatch "not a token" = false ∧
      activate hashFP (fun _ => .ok ⟨"addr", "e@m", "u1", 5, "spon"⟩)
          ⟨[], [], false, []⟩ ⟨[]⟩ "not a token" "h" =
        ⟨401, [], ⟨[], [], false, []⟩, ⟨[]⟩⟩ :=
  ⟨by decide,
    C1_unauthorized_without_extract hashFP (fun _ => .ok ⟨"addr", "e@m", "u1", 5, "spon"⟩)
      ⟨[], [], false, []⟩ ⟨[]⟩ "not a token" "h" (Or.inl (by decide))⟩

/-- C4: when the fingerprint gate passes, extract succeeds and the durable
store already knows the identity of the token, activate answers 409
Conflict after consulting the store for the identity only: the referrer is
never looked up, so the answer is Conflict whatever the referrer state, and
store and cache are untouched. -/
theorem C4_duplicate_identity_conflict
    (hashFn : String → String) (extractFn : String → Except Unit User)
    (store : Store) (cache : Cache) (t h : String) (u : User)
    (hre : jwtregexpMatch t = true) (hh : hashFn t = h)
    (hex : extractFn t = .ok u)
    (hdup : store.isPresent u.address = .ok true) :
    activate hashFn extractFn store cache t h =
      ⟨409, [.extractCall t, .storeLookup u.address], store, cache⟩ := by
  unfold activate
  rw [if_neg (by push_neg; exact ⟨by simp [hre], hh⟩)]
  simp only [hex, hdup]

/-- C4 witness: a concrete activation whose identity is already stored and
whose sponsor is unknown still answers 409 Conflict, with the referrer
never consulted. -/
theorem C4_duplicate_identity_conflict_witness :
    activate hashFP (fun _ => .ok ⟨"addr", "e@m", "u1", 5, "spon"⟩)
        ⟨["addr"], [], false, []⟩ ⟨[]⟩ "a.b.c" (hashFP "a.b.c") =
      ⟨409, [.extractCall "a.b.c", .storeLookup "addr"], ⟨["addr"], [], false, []⟩, ⟨[]⟩⟩ :=
  C4_duplicate_identity_conflict hashFP (fun _ => .ok ⟨"addr", "e@m", "u1", 5, "spon"⟩)
    ⟨["addr"], [], false, []⟩ ⟨[]⟩ "a.b.c" (hashFP "a.b.c") ⟨"addr", "e@m", "u1", 5, "spon"⟩
    (by decide) rfl rfl rfl

/-- C5 counterexample: on a concrete activation whose token and fingerprint
pass and whose sponsor is unknown, the code answers HTTP 400 Bad Request —
the very status it gives to structural validation failures (register with a
failing binding also answers 400) — and not HTTP 412 Precondition Failed,
so the unknown-referrer error is not a kind distinct from ValidationError. -/
theorem C5_counterexample :
    (activate hashFP (fun _ => .ok ⟨"addr", "e@m", "u1", 5, "spon"⟩)
        ⟨["other"], [], false, []⟩ ⟨[]⟩ "a.b.c" (hashFP "a.b.c")).status = 400
    ∧ (register hashFP (fun _ _ => .ok "a.b.c") false ⟨"addr", "e@m", "u1", 5, "spon"⟩ 0
        ⟨["other"], [], false, []⟩).status = 400
    ∧ ¬ (400 : Nat) = 412 := by
  refine ⟨by decide, rfl, by decide⟩

/-- C5 amended: activating with a valid token and matching fingerprint
whose referrer is not a known participant answers HTTP 400 Bad Request — a
status distinct from Conflict (409) and Unauthorized (401) but identical to
the status of structural validation errors, not a separate
precondition-failed kind. -/
theorem C5_unknown_referrer_bad_request
    (hashFn : String → String) (extractFn : String → Except Unit User)
    (store : Store) (cache : Cache) (t h : String) (u : User)
    (hre : jwtregexpMatch t = true) (hh : hashFn t = h)
    (hex : extractFn t = .ok u)
    (haddr : store.isPresent u.address = .ok false)
    (hspon : store.isPresent u.sponsor = .ok false) :
    (activate hashFn extractFn store cache t h).status = 400
    ∧ (activate hashFn extractFn store cache t h).status ≠ 409
    ∧ (activate hashFn extractFn store cache t h).status ≠ 401 := by
  have hrun : activate hashFn extractFn store cache t h =
      ⟨400, [.extractCall t, .storeLookup u.address, .storeLookup u.sponsor],
        store, cache⟩ := by
    unfold activate
    rw [if_neg (by push_neg; exact ⟨by simp [hre], hh⟩)]
    simp only [hex, haddr, hspon]
  have h409 : (400 : Nat) ≠ 409 := by decide
  have h401 : (400 : Nat) ≠ 401 := by decide
  rw [hrun]
  exact ⟨rfl, fun hcon => h409 hcon, fun hcon => h401 hcon⟩

/-- C5 witness: a concrete unknown-sponsor activation answers 400, which
differs from 409 and from 401. -/
theorem C5_unknown_referrer_bad_request_witness :
    (activate hashFP (fun _ => .ok ⟨"addr", "e@m", "u1", 5, "spon"⟩)
        ⟨["other"], [], false, []⟩ ⟨[]⟩ "a.b.c" (hashFP "a.b.c")).status = 400 :=
  (C5_unknown_referrer_bad_request hashFP (fun _ => .ok ⟨"addr", "e@m", "u1", 5, "spon"⟩)
    ⟨["other"], [], false, []⟩ ⟨[]⟩ "a.b.c" (hashFP "a.b.c")
    ⟨"addr", "e@m", "u1", 5, "spon"⟩ (by decide) rfl rfl rfl rfl).1

/-- C6: the presence cache is written only after a successful durable
persist: whenever activate does not answer 201 Created — fingerprint
mismatch, invalid token, store lookup fault, duplicate identity, unknown
referrer or persist fault — the cache comes back unchanged, and conversely
a changed cache implies the 201 success answer. -/
theorem C6_cache_only_after_persist
    (hashFn : String → String) (extractFn : String → Except Unit User)
    (store : Store) (cache : Cache) (t h : String) :
    ((activate hashFn extractFn store cache t h).status ≠ 201 →
      (activate hashFn extractFn store cache t h).cache = cache)
    ∧ ((activate hashFn extractFn store cache t h).cache ≠ cache →
      (activate hashFn extractFn store cache t h).status = 201) := by
  unfold activate
  repeat' split
  all_goals first
    | exact ⟨fun _ => rfl, fun hc => absurd rfl hc⟩
    | exact ⟨fun hs => absurd rfl hs, fun _ => rfl⟩

/-- C6 witness: a concrete failing activation (invalid token) leaves a
non-empty cache exactly as it was. -/
theorem C6_cache_only_after_persist_witness :
    (activate hashFP (fun _ => .error ()) ⟨[], [], false, []⟩ ⟨[("x", 1)]⟩
        "a.b.c" (hashFP "a.b.c")).cache = ⟨[("x", 1)]⟩ :=
  (C6_cache_only_after_persist hashFP (fun _ => .error ()) ⟨[], [], false, []⟩
    ⟨[("x", 1)]⟩ "a.b.c" (hashFP "a.b.c")).1 (by decide)

/-- C7: after filling the cache with an entry set S, a key is present
exactly when it occurs in S — whatever the cache held before — and filling
with nil or with an empty set leaves a cache in which no key is present. -/
theorem C7_fill_replaces_everything (c : Cache) (S : List (String × Int)) (k : String) :
    ((c.fill (some S)).isPresent k = true ↔ k ∈ S.map Prod.fst)
    ∧ (c.fill none).isPresent k = false
    ∧ (c.fill (some [])).isPresent k = false := by
  refine ⟨?_, rfl, rfl⟩
  unfold Cache.fill Cache.isPresent
  simp [lookup_isSome_iff k S]

/-- C8 counterexample: a concrete register run mails a link consisting of
the base URL and the raw token only; it differs from the
base/activate/token/fingerprint form the claim describes, whose fingerprint
segment would be the hash of the token. -/
theorem C8_counterexample :
    (register hashFP (fun _ _ => .ok "x.y.z") true ⟨"addr", "e@m", "u1", 5, "spon"⟩ 0
        ⟨[], [], false, []⟩).events =
      [Ev.sendActivation "e@m" "https://unleak.trade/activate/x.y.z" (hashFP "x.y.z")]
    ∧ "https://unleak.trade/activate/x.y.z" ≠
      "https://unleak.trade/activate/" ++ "x.y.z" ++ "/" ++ hashFP "x.y.z" := by
  refine ⟨rfl, by decide⟩

/-- C8 amended: the activation link delivered to the notifier has the form
base-URL/activate/token — it embeds the raw token only; the fingerprint is
handed to the notifier as a separate argument of the same call, not as a
path segment of the link. -/
theorem C8_link_contains_token_only (hashFn : String → String)
    (createFn : User → Int → Except Unit String) (u : User) (now : Int)
    (store : Store) (token : String) (hc : createFn u now = .ok token) :
    (register hashFn createFn true u now store).events =
      [Ev.sendActivation u.email ("https://unleak.trade/activate/" ++ token)
        (hashFn token)] := by
  unfold register
  rw [if_neg (by simp)]
  simp only [hc]
  rfl

/-- C8 witness: concrete run of the amended link shape. -/
theorem C8_link_contains_token_only_witness :
    (register hashFP (fun _ _ => .ok "x.y.z") true ⟨"addr", "e@m", "u1", 5, "spon"⟩ 0
        ⟨[], [], false, []⟩).events =
      [Ev.sendActivation "e@m" ("https://unleak.trade/activate/" ++ "x.y.z")
        (hashFP "x.y.z")] :=
  C8_link_contains_token_only hashFP (fun _ _ => .ok "x.y.z")
    ⟨"addr", "e@m", "u1", 5, "spon"⟩ 0 ⟨[], [], false, []⟩ "x.y.z" rfl

/-- C9: a register request whose claims pass structural validation performs
no durable-store operation — the whole outcome, the store included, is the
same for every store state, the only collaborator event is the activation
mail, and the response carries the fingerprint of the minted token —
and a token minted at a different instant is a different token, so
re-registering before activation merely issues a new independent token. -/
theorem C9_register_no_store_write (hashFn : String → String)
    (createFn : User → Int → Except Unit String) (u : User) (now : Int)
    (store : Store) (token : String) (hc : createFn u now = .ok token) :
    (register hashFn createFn true u now store =
      ⟨202, some (hashFn token),
        [Ev.sendActivation u.email (generateSecuredLink token) (hashFn token)], store⟩)
    ∧ ∀ (j : JWTService) (c : Claims) (t1 t2 : Int), t1 ≠ t2 →
        j.create c t1 ≠ j.create c t2 := by
  constructor
  · unfold register
    rw [if_neg (by simp)]
    simp only [hc]
  · intro j c t1 t2 hne heq
    exact hne (congrArg TokenData.iat heq)

/-- C9 witness: a concrete register run leaves a non-empty store exactly as
it was, answers 202 with the fingerprint, and two mints of the same claims
at instants 0 and 1 differ. -/
theorem C9_register_no_store_write_witness :
    (register hashFP (fun _ _ => .ok "x.y.z") true ⟨"addr", "e@m", "u1", 5, "spon"⟩ 0
        ⟨["prior"], [], false, []⟩ =
      ⟨202, some (hashFP "x.y.z"),
        [Ev.sendActivation "e@m" (generateSecuredLink "x.y.z") (hashFP "x.y.z")],
        ⟨["prior"], [], false, []⟩⟩)
    ∧ (JWTService.mk "ES256" 0).create ⟨"a", "e", "s"⟩ 0 ≠
        (JWTService.mk "ES256" 0).create ⟨"a", "e", "s"⟩ 1 :=
  have h := C9_register_no_store_write hashFP (fun _ _ => .ok "x.y.z")
    ⟨"addr", "e@m", "u1", 5, "spon"⟩ 0 ⟨["prior"], [], false, []⟩ "x.y.z" rfl
  ⟨h.1, h.2 ⟨"ES256", 0⟩ ⟨"a", "e", "s"⟩ 0 1 (by decide)⟩

/-- C10 counterexample: the admission limiter runs before the API-key
check, so a request whose UNLK-API-KEY header is wrong but whose client is
over budget is answered 429 Too Many Requests, not 401 Unauthorized. -/
theorem C10_counterexample :
    pipeline false false "wrong-key" "secret" (fun _ st => (200, st)) Op.health
        (⟨[], [], false, []⟩, ⟨[]⟩) =
      (429, (⟨[], [], false, []⟩, ⟨[]⟩))
    ∧ ¬ (429 : Nat) = 401 := by
  refine ⟨rfl, by decide⟩

/-- C10 amended: for every one of the five guarded operations, a request
that is not a CORS preflight and is admitted by the rate limiter but whose
UNLK-API-KEY header is missing, empty or different from the configured key
is answered 401 Unauthorized with the store and cache unchanged, and this
holds for every handler — the handler of the operation is never reached. -/
theorem C10_bad_key_unauthorized (hdr key : String)
    (handler : Op → Store × Cache → Nat × Store × Cache) (op : Op)
    (st : Store × Cache) (hbad : hdr = "" ∨ hdr ≠ key) :
    pipeline false true hdr key handler op st = (401, st) := by
  unfold pipeline
  rw [if_neg (by simp), if_neg (by simp), if_pos hbad]

/-- C10 witness: a concrete admitted request with an empty key header is
answered 401 and the state is untouched. -/
theorem C10_bad_key_unauthorized_witness :
    pipeline false true "" "secret" (fun _ st => (200, st)) Op.registerOp
        (⟨[], [], false, []⟩, ⟨[("x", 1)]⟩) =
      (401, (⟨[], [], false, []⟩, ⟨[("x", 1)]⟩)) :=
  C10_bad_key_unauthorized "" "secret" (fun _ st => (200, st)) Op.registerOp
    (⟨[], [], false, []⟩, ⟨[("x", 1)]⟩) (Or.inl rfl)

/-- C2: every failure of extract is the one undifferentiated invalidToken
error, and each listed failure mode — token signed by a different algorithm
family or key, expired token, not-yet-valid token, or a required claim left
empty in a correctly signed live token — yields exactly that error, so the
cases are mutually indistinguishable. -/
theorem C2_extract_failures_collapse (j : JWTService) (tk : TokenData) (now : Int) :
    (∀ e, j.extract tk now = .error e → e = .invalidToken)
    ∧ (tk.alg ≠ j.alg ∨ tk.keyId ≠ j.keyId → j.extract tk now = .error .invalidToken)
    ∧ (tk.exp ≤ now → j.extract tk now = .error .invalidToken)
    ∧ (now < tk.nbf → j.extract tk now = .error .invalidToken)
    ∧ (tk.alg = j.alg → tk.keyId = j.keyId → tk.nbf ≤ now → now < tk.exp →
        tk.claims.address = "" ∨ tk.claims.email = "" ∨ tk.claims.sponsor = "" →
        j.extract tk now = .error .invalidToken) := by
  refine ⟨fun e _ => by cases e; rfl, ?_, ?_, ?_, ?_⟩
  · intro hbad
    unfold JWTService.extract
    split
    · next hcond =>
        obtain ⟨h1, h2, -⟩ := hcond
        rcases hbad with hb | hb
        · exact absurd h1 hb
        · exact absurd h2 hb
    · rfl
  · intro hexp
    unfold JWTService.extract
    split
    · next hcond =>
        obtain ⟨-, -, -, hlt, -⟩ := hcond
        exact absurd hlt (not_lt.mpr hexp)
    · rfl
  · intro hnbf
    unfold JWTService.extract
    split
    · next hcond =>
        obtain ⟨-, -, hle, -⟩ := hcond
        exact absurd hle (not_le.mpr hnbf)
    · rfl
  · intro _ _ _ _ hempty
    unfold JWTService.extract
    split
    · next hcond =>
        obtain ⟨-, -, -, -, ha, he, hs⟩ := hcond
        rcases hempty with hb | hb | hb
        · exact absurd hb ha
        · exact absurd hb he
        · exact absurd hb hs
    · rfl

/-- C2 witness: a correctly signed, live token whose identity claim is
empty is rejected with invalidToken on a concrete instance, exactly like a
concrete token signed under a different key. -/
theorem C2_extract_failures_collapse_witness :
    (JWTService.mk "ES256" 1).extract ⟨"ES256", 1, ⟨"", "e@m", "spon"⟩, 0, 0, 600⟩ 10 =
      .error .invalidToken
    ∧ (JWTService.mk "ES256" 1).extract ⟨"ES256", 2, ⟨"addr", "e@m", "spon"⟩, 0, 0, 600⟩ 10 =
      .error .invalidToken :=
  ⟨(C2_extract_failures_collapse ⟨"ES256", 1⟩ ⟨"ES256", 1, ⟨"", "e@m", "spon"⟩, 0, 0, 600⟩
      10).2.2.2.2 rfl rfl (by decide) (by decide) (Or.inl rfl),
    (C2_extract_failures_collapse ⟨"ES256", 1⟩ ⟨"ES256", 2, ⟨"addr", "e@m", "spon"⟩, 0, 0, 600⟩
      10).2.1 (Or.inr (by decide))⟩

/-- C3: for valid claims, extracting on the same instance the token created
at instant t returns the claims unchanged at every instant of
[t, t + fixedWindow), and returns the invalidToken error at every instant
at or past t + fixedWindow and at every instant before t. -/
theorem C3_create_extract_roundtrip (j : JWTService) (c : Claims) (t now : Int)
    (ha : c.address ≠ "") (he : c.email ≠ "") (hs : c.sponsor ≠ "") :
    (t ≤ now → now < t + fixedWindow → j.extract (j.create c t) now = .ok c)
    ∧ (t + fixedWindow ≤ now → j.extract (j.create c t) now = .error .invalidToken)
    ∧ (now < t → j.extract (j.create c t) now = .error .invalidToken) := by
  refine ⟨?_, ?_, ?_⟩
  · intro h1 h2
    unfold JWTService.create JWTService.extract
    rw [if_pos ⟨rfl, rfl, h1, h2, ha, he, hs⟩]
  · intro hexp
    unfold JWTService.create JWTService.extract
    rw [if_neg]
    rintro ⟨-, -, -, hlt, -⟩
    exact absurd hlt (not_lt.mpr hexp)
  · intro hnbf
    unfold JWTService.create JWTService.extract
    rw [if_neg]
    rintro ⟨-, -, hle, -⟩
    exact absurd hle (not_le.mpr hnbf)

/-- C3 witness: concrete round trip inside the window and concrete
rejections at the window bound and before issuance. -/
theorem C3_create_extract_roundtrip_witness :
    (JWTService.mk "HS256" 0).extract ((JWTService.mk "HS256" 0).create ⟨"a", "e", "s"⟩ 100) 100 =
      .ok ⟨"a", "e", "s"⟩
    ∧ (JWTService.mk "HS256" 0).extract ((JWTService.mk "HS256" 0).create ⟨"a", "e", "s"⟩ 100) 700 =
      .error .invalidToken
    ∧ (JWTService.mk "HS256" 0).extract ((JWTService.mk "HS256" 0).create ⟨"a", "e", "s"⟩ 100) 99 =
      .error .invalidToken :=
  have h := C3_create_extract_roundtrip ⟨"HS256", 0⟩ ⟨"a", "e", "s"⟩ 100 100
    (by decide) (by decide) (by decide)
  have h7 := C3_create_extract_roundtrip ⟨"HS256", 0⟩ ⟨"a", "e", "s"⟩ 100 700
    (by decide) (by decide) (by decide)
  have h9 := C3_create_extract_roundtrip ⟨"HS256", 0⟩ ⟨"a", "e", "s"⟩ 100 99
    (by decide) (by decide) (by decide)
  ⟨h.1 (by decide) (by decide), h7.2.1 (by decide), h9.2.2 (by decide)⟩

end Waitlist
